import Mathlib

/-!
Verification of the PDF extraction scripts of the Extratores-Python
repository.  The Python functions under scrutiny are embedded shallowly:
pure string/list manipulation is translated to Lean functions over
`String`/`List`, file-system and API effects become explicit parameters
(oracles describing the outcome of each attempt), and exceptions become
`Except` values.  Field names and literal strings follow the source.
-/

/- ## Python string primitives used by the scripts -/

/-- Models Python `str.strip()`: removes leading and trailing whitespace. -/
def pyStrip (s : String) : String :=
  ⟨((s.data.dropWhile Char.isWhitespace).reverse.dropWhile Char.isWhitespace).reverse⟩

/-- Models Python `str.lower()` on the ASCII range (the messages the
scripts match against are ASCII). -/
def pyLower (s : String) : String :=
  ⟨s.data.map Char.toLower⟩

/-- Substring test on character lists: `pat` occurs somewhere in the list. -/
def listContainsSub (pat : List Char) : List Char → Bool
  | [] => pat.isEmpty
  | c :: rest => pat.isPrefixOf (c :: rest) || listContainsSub pat rest

/-- Models the Python `pat in s` substring test. -/
def pyInStr (pat s : String) : Bool :=
  listContainsSub pat.data s.data

/-- Models Python `sep.join(parts)`. -/
def pyJoin (sep : String) : List String → String
  | [] => ""
  | [a] => a
  | a :: b :: rest => a ++ sep ++ pyJoin sep (b :: rest)

/-- Models the Python `repr` of a list of strings, as interpolated by an
f-string: `[<q>a<q>, <q>b<q>]` with single-quote characters around each
element. -/
def pyListRepr (l : List String) : String :=
  "[" ++ pyJoin ", " (l.map fun s => "\x27" ++ s ++ "\x27") ++ "]"

/- ## The control-CSV ledger of `extracao_openai_vision_v3.py` -/

namespace Vision3

/-- Header row written by `append_ctrl_csv` when it creates the ledger. -/
def ctrlHeader : List String :=
  ["projeto", "arquivo_pdf", "hash_pdf", "data_processamento", "status", "output_path"]

/-- A CSV file as `csv` sees it: `none` when the path does not exist,
otherwise the list of rows, each row a list of cell strings. -/
abbrev CsvFile := Option (List (List String))

/-- Models `row[field]` under `csv.DictReader`: look the field name up in
the header row and take the cell at that index (`none` when the row is
shorter than the header). -/
def rowField (header row : List String) (f : String) : Option String :=
  (header.indexOf? f).bind fun i => row[i]?

/-- The key tuples `(projeto, arquivo_pdf, hash_pdf, status, output_path)`
that `append_ctrl_csv` collects from an existing ledger via
`csv.DictReader` (the first row is the header). -/
def readerKeys (rows : List (List String)) :
    List (Option String × Option String × Option String × Option String × Option String) :=
  match rows with
  | [] => []
  | header :: body =>
    body.map fun r =>
      (rowField header r "projeto", rowField header r "arquivo_pdf",
       rowField header r "hash_pdf", rowField header r "status",
       rowField header r "output_path")

/-- Embeds `append_ctrl_csv(projeto, arquivo_pdf, hash_pdf, status,
output_path, path)`.  `now` stands for `datetime.now().isoformat()`.
The function loads the existing rows to check for a duplicate of the
five-field key, returns the file unchanged on a duplicate, and otherwise
appends the new row (writing the header first when the file is created). -/
def append_ctrl_csv (file : CsvFile)
    (projeto arquivo_pdf hash_pdf status output_path now : String) : CsvFile :=
  let existe := file.isSome
  let registros := match file with
    | none => []
    | some rows => readerKeys rows
  let chave := (some projeto, some arquivo_pdf, some hash_pdf, some status, some output_path)
  if chave ∈ registros then file
  else
    let newRow := [projeto, arquivo_pdf, hash_pdf, now, status, output_path]
    if existe then
      match file with
      | none => some [ctrlHeader, newRow]
      | some rows => some (rows ++ [newRow])
    else some [ctrlHeader, newRow]

/-- A parsed ledger row as `csv.DictReader` yields it to
`carrega_ctrl_csv` (the six columns of `ctrlHeader`). -/
structure CtrlRow where
  projeto : String
  arquivo_pdf : String
  hash_pdf : String
  data_processamento : String
  status : String
  output_path : String
deriving DecidableEq, Repr

/-- Embeds `carrega_ctrl_csv` at one key: the dict comprehension
`{(row.projeto, row.arquivo_pdf, row.hash_pdf): row for row in reader}`
keeps, for each key, the last row of the file with that key. -/
def carrega_ctrl_csv (rows : List CtrlRow) (chave : String × String × String) :
    Option CtrlRow :=
  (rows.filter fun r =>
    r.projeto == chave.1 && r.arquivo_pdf == chave.2.1 && r.hash_pdf == chave.2.2).getLast?

/-- Embeds the per-file skip decision of `process_project`: the file is
skipped (extraction is not run) exactly when
`registro and registro[<status>] == <success> and os.path.exists(json_output)`.
`existsFs` is the oracle for `os.path.exists`. -/
def process_project_skips (ctrlRows : List CtrlRow) (existsFs : String → Bool)
    (project_name filename_pdf hash_pdf json_output : String) : Bool :=
  match carrega_ctrl_csv ctrlRows (project_name, filename_pdf, hash_pdf) with
  | some registro => registro.status == "success" && existsFs json_output
  | none => false

end Vision3

/- ## The `src/` extractor classes (`direct_extractor.py`, `hybrid_extractor.py`) -/

namespace Extractors

/-- The fields of the `ExtractionResult` dataclass that the extraction
logic reads and writes.  `file_path`, `processing_time`, `file_size`,
`metadata` and `timestamp` are wall-clock / file-system metadata that the
control flow never inspects, so they are omitted from the embedding. -/
structure ExtractionResult where
  success : Bool
  text_content : String
  pages_processed : Nat
  extraction_method : String
  error_message : Option String
deriving DecidableEq, Repr

/-- Pages kept by the extraction loops of `_extract_with_pdfplumber` /
`_extract_with_pypdf2`: pages are numbered from 1 (`enumerate(pages, 1)`),
and a page is kept when `text` is truthy and `text.strip()` is non-empty.
Each page of the input is `none` when `page.extract_text()` returned
`None` (or the page raised and was skipped), otherwise the extracted
string. -/
def keptPages (start : Nat) : List (Option String) → List (Nat × String)
  | [] => []
  | none :: rest => keptPages (start + 1) rest
  | some t :: rest =>
    if !t.isEmpty && !(pyStrip t).isEmpty then (start, t) :: keptPages (start + 1) rest
    else keptPages (start + 1) rest

/-- The string appended for one kept page:
`f"=== PÁGINA {page_num} ===\n{text}\n"`. -/
def pageSegment (n : Nat) (t : String) : String :=
  "=== PÁGINA " ++ toString n ++ " ===\n" ++ t ++ "\n"

/-- Embeds the shared body of `_extract_with_pdfplumber` and
`_extract_with_pypdf2`.  The `outcome` oracle is either the per-page
extraction results, or `(msg, k)` when the backend raised after `k`
pages had already been counted: then the method returns a failure result
with empty text (the partial count survives in `pages_processed`, as in
the `except` branch of the source). -/
def extractBackend (method : String)
    (outcome : Except (String × Nat) (List (Option String))) : ExtractionResult :=
  match outcome with
  | .error (msg, k) =>
    { success := false, text_content := "", pages_processed := k,
      extraction_method := method,
      error_message := some ("Erro na extração com " ++ method ++ ": " ++ msg) }
  | .ok pages =>
    let kept := keptPages 1 pages
    let segs := kept.map fun p => pageSegment p.1 p.2
    let success := !segs.isEmpty
    { success := success,
      text_content := if success then pyJoin "\n" segs else "",
      pages_processed := kept.length,
      extraction_method := method,
      error_message := none }

/-- Failure result returned by `DirectExtractor.extract_text` when both
backends fail. -/
def directBothFailed : ExtractionResult :=
  { success := false, text_content := "", pages_processed := 0,
    extraction_method := "Direct PDF Text Extractor",
    error_message := some "Não foi possível extrair texto com métodos diretos" }

/-- Failure result returned when `validate_pdf` rejects the file. -/
def invalidPdfResult (name : String) : ExtractionResult :=
  { success := false, text_content := "", pages_processed := 0,
    extraction_method := name,
    error_message := some "PDF inválido ou inacessível" }

/-- Embeds `DirectExtractor.extract_text`.  `validate` is the oracle for
`validate_pdf`; `use_pdfplumber` / `use_pypdf2` come from
`_setup_extractor`; `plumber` / `pypdf` are the backend outcomes.  The
second component records whether the PyPDF2 fallback was attempted. -/
def directExtractText (validate use_pdfplumber use_pypdf2 : Bool)
    (plumber pypdf : Except (String × Nat) (List (Option String))) :
    ExtractionResult × Bool :=
  if !validate then (invalidPdfResult "Direct PDF Text Extractor", false)
  else
    let tryPypdf : ExtractionResult × Bool :=
      if use_pypdf2 then
        let r := extractBackend "PyPDF2" pypdf
        if r.success then (r, true) else (directBothFailed, true)
      else (directBothFailed, false)
    if use_pdfplumber then
      let r := extractBackend "pdfplumber" plumber
      if r.success && !(pyStrip r.text_content).isEmpty then (r, false)
      else tryPypdf
    else tryPypdf

/-- `HybridExtractor.extractor_name`. -/
def hybridName : String := "Hybrid PDF Text Extractor"

/-- The configuration fields of `HybridExtractor._setup_extractor` that
`extract_text` reads (defaults: threshold 50, prefer direct, OCR
fallback enabled). -/
structure HybridConfig where
  min_text_threshold : Nat
  prefer_direct : Bool
  ocr_fallback : Bool
deriving DecidableEq, Repr

/-- The defaults of `_setup_extractor`. -/
def defaultHybridConfig : HybridConfig :=
  { min_text_threshold := 50, prefer_direct := true, ocr_fallback := true }

/-- Embeds `HybridExtractor._is_extraction_successful`. -/
def is_extraction_successful (cfg : HybridConfig) (r : ExtractionResult) : Bool :=
  if !r.success then false
  else if (pyStrip r.text_content).length < cfg.min_text_threshold then false
  else if r.pages_processed == 0 then false
  else true

/-- Embeds `_try_direct_extraction` / `_try_ocr_extraction`: the inner
extractor either returns a result or raises, in which case the `except`
branch builds a failure result carrying the exception message. -/
def tryAttempt (methodOnError : String)
    (outcome : Except String ExtractionResult) : ExtractionResult :=
  match outcome with
  | .ok r => r
  | .error e =>
    { success := false, text_content := "", pages_processed := 0,
      extraction_method := methodOnError, error_message := some e }

/-- Embeds the tail of `HybridExtractor.extract_text` (both strategies
failed): return `_last_direct_result` (set only when the direct attempt
did not raise), else `_last_ocr_result`, else a fresh failure result. -/
def hybridFallback (cfg : HybridConfig)
    (lastDirect lastOcr : Option ExtractionResult) : ExtractionResult :=
  match (if cfg.prefer_direct then lastDirect else none) with
  | some r => { r with extraction_method := hybridName ++ " (Direct - Partial)" }
  | none =>
    match lastOcr with
    | some r => { r with extraction_method := hybridName ++ " (OCR - Partial)" }
    | none =>
      { success := false, text_content := "", pages_processed := 0,
        extraction_method := hybridName,
        error_message := some "Nenhum método de extração foi bem-sucedido" }

/-- Embeds `HybridExtractor.extract_text`.  `validate` is the oracle for
`validate_pdf`; `directOutcome` / `ocrOutcome` are the oracles for the
inner extractors (exception or result).  The second component records
whether `_try_ocr_extraction` was invoked. -/
def hybridExtractText (cfg : HybridConfig) (validate : Bool)
    (directOutcome ocrOutcome : Except String ExtractionResult) :
    ExtractionResult × Bool :=
  if !validate then (invalidPdfResult hybridName, false)
  else
    let stage2 : Option ExtractionResult → ExtractionResult × Bool := fun lastDirect =>
      if cfg.ocr_fallback then
        let o := tryAttempt "OCR (Error)" ocrOutcome
        if is_extraction_successful cfg o then
          ({ o with extraction_method := hybridName ++ " (OCR)" }, true)
        else (hybridFallback cfg lastDirect ocrOutcome.toOption, true)
      else (hybridFallback cfg lastDirect none, false)
    if cfg.prefer_direct then
      let d := tryAttempt "Direct (Error)" directOutcome
      if is_extraction_successful cfg d then
        ({ d with extraction_method := hybridName ++ " (Direct)" }, false)
      else stage2 directOutcome.toOption
    else stage2 none

end Extractors

/- ## `extracao_dados_pdf_openai.py`: PDF validation retry and CSV write retry -/

namespace DadosPdf

/-- What one attempt of `verificar_pdf_valido` observes: the early
`stat` checks, a successful or empty conversion, an exception raised by
the conversion (inner `try`), or an exception raised outside it
(e.g. by `stat`). -/
inductive PdfAttempt where
  | missing
  | emptyFile
  | tooSmall
  | converted
  | noPages
  | convErr (msg : String)
  | outerErr (msg : String)
deriving DecidableEq, Repr

/-- The file-lock test of `verificar_pdf_valido`:
`error_msg = str(e).lower()` followed by the two `in` checks. -/
def isLockMsg (msg : String) : Bool :=
  pyInStr "winerror 32" (pyLower msg) || pyInStr "sendo usado por outro processo" (pyLower msg)

/-- The corruption-keyword test of `verificar_pdf_valido`. -/
def isCorruptMsg (msg : String) : Bool :=
  (["trailer dictionary", "xref table", "page count",
    "syntax error", "not a pdf file", "corrupted"].any
    fun kw => pyInStr kw (pyLower msg))

/-- Embeds the `for tentativa in range(1, max_tentativas + 1)` loop of
`verificar_pdf_valido`.  `t` is the current attempt number, `fuel` the
number of loop iterations left (`max_tentativas - t + 1`).  The second
component records the backoff sleeps `time.sleep(1.0 * tentativa)` in
whole seconds (the fixed 0.2 s handle-release delays are not part of
the retry policy and are not tracked). -/
def verificarLoop (env : Nat → PdfAttempt) : Nat → Nat → (Bool × String) × List Nat
  | _, 0 => ((false, "Falha na validação após 3 tentativas"), [])
  | t, fuel + 1 =>
    match env t with
    | .missing => ((false, "Arquivo não encontrado"), [])
    | .emptyFile => ((false, "Arquivo vazio"), [])
    | .tooSmall => ((false, "Arquivo muito pequeno (possivelmente corrompido)"), [])
    | .converted => ((true, "PDF válido"), [])
    | .noPages => ((false, "PDF sem páginas válidas"), [])
    | .convErr msg =>
      if isLockMsg msg then
        if t < 3 then
          let r := verificarLoop env (t + 1) fuel
          (r.1, t :: r.2)
        else ((false, "Arquivo em uso após 3 tentativas: " ++ msg), [])
      else if isCorruptMsg msg then ((false, "PDF corrompido: " ++ msg), [])
      else ((false, "Erro ao processar PDF: " ++ msg), [])
    | .outerErr msg =>
      if isLockMsg msg then
        if t < 3 then
          let r := verificarLoop env (t + 1) fuel
          (r.1, t :: r.2)
        else ((false, "Erro persistente após 3 tentativas: " ++ msg), [])
      else ((false, "Erro na validação: " ++ msg), [])

/-- Embeds `verificar_pdf_valido` (`max_tentativas = 3`): the result pair
`(is_valid, error_message)` plus the recorded backoff sleeps.  The
embedding is a total function: every branch of the source returns a
tuple, none re-raises. -/
def verificar_pdf_valido (env : Nat → PdfAttempt) : (Bool × String) × List Nat :=
  verificarLoop env 1 3

/-- An attempt that raises a Windows file-lock error (either inside or
outside the conversion `try`). -/
def lockAttempt : PdfAttempt → Bool
  | .convErr msg => isLockMsg msg
  | .outerErr msg => isLockMsg msg
  | _ => false

/-- Outcome of one write in `gerar_csv_arquivos_pdfs`. -/
inductive WriteOutcome where
  | ok
  | permErr (msg : String)
  | otherErr (msg : String)
deriving DecidableEq, Repr

/-- Where the rows ended up (`noWrite` models the loop exiting with
`csv_escrito` still false, which no branch of the source reaches). -/
inductive WriteLoc where
  | mainPath
  | tempPath
  | noWrite
deriving DecidableEq, Repr

/-- A Python exception escaping `gerar_csv_arquivos_pdfs`. -/
inductive PyError where
  | permError (msg : String)
  | otherError (msg : String)
deriving DecidableEq, Repr

/-- Embeds the `while not csv_escrito and tentativas < max_tentativas`
loop of `gerar_csv_arquivos_pdfs`.  `mainW t` is the outcome of the
attempt `t` write to `path_csv`, `fallbackOk` the outcome of the write
to the temporary fallback path, `existsAt t` the oracle for
`path_csv.exists()` at the start of attempt `t`.  Returns the final
outcome, the attempts at which a backup copy was made, and the recorded
`time.sleep(2)` delays. -/
def gerarCsvLoop (mainW : Nat → WriteOutcome) (fallbackOk : Bool)
    (existsAt : Nat → Bool) : Nat → Nat → Except PyError WriteLoc × List Nat × List Nat
  | _, 0 => (.ok .noWrite, [], [])
  | t, fuel + 1 =>
    let bk : List Nat := if existsAt t && decide (1 < t) then [t] else []
    match mainW t with
    | .ok => (.ok .mainPath, bk, [])
    | .permErr m =>
      if t < 3 then
        let r := gerarCsvLoop mainW fallbackOk existsAt (t + 1) fuel
        (r.1, bk ++ r.2.1, 2 :: r.2.2)
      else if fallbackOk then (.ok .tempPath, bk, [])
      else (.error (.permError m), bk, [])
    | .otherErr m =>
      if t < 3 then
        let r := gerarCsvLoop mainW fallbackOk existsAt (t + 1) fuel
        (r.1, bk ++ r.2.1, r.2.2)
      else (.error (.otherError m), bk, [])

/-- Embeds the write phase of `gerar_csv_arquivos_pdfs`
(`max_tentativas = 3`).  `inUse` is the result of the
`verificar_arquivo_em_uso` pre-check, which raises `PermissionError`
before any write attempt. -/
def gerar_csv_arquivos_pdfs (inUse : Bool) (mainW : Nat → WriteOutcome)
    (fallbackOk : Bool) (existsAt : Nat → Bool) :
    Except PyError WriteLoc × List Nat × List Nat :=
  if inUse then (.error (.permError "Arquivo está sendo usado por outro processo"), [], [])
  else gerarCsvLoop mainW fallbackOk existsAt 1 3

end DadosPdf

/- ## The semaphore-bounded page pipeline of `extract_text_openai_vision_async` -/

namespace Vision3Async

/-- Status of one per-page task of `asyncio.gather`: not yet past the
`async with semaphore` line, holding the semaphore with its API call in
flight, or finished (semaphore released). -/
inductive TaskStatus where
  | waiting
  | inflight
  | done
deriving DecidableEq, Repr

/-- The scheduler-visible state: the counter of
`asyncio.Semaphore(max_concurrent)` and the per-task statuses. -/
structure SemState where
  sem : Nat
  tasks : List TaskStatus
deriving DecidableEq, Repr

/-- Initial state: the semaphore holds `max_concurrent` permits and the
`len(pages)` tasks created for `asyncio.gather` are all waiting. -/
def initState (max_concurrent numPages : Nat) : SemState :=
  { sem := max_concurrent, tasks := List.replicate numPages .waiting }

/-- One scheduler step of `process_with_semaphore`: a waiting task may
enter `async with semaphore` only when a permit is available (the API
call is then in flight); a task whose call returned leaves the `with`
block and releases its permit. -/
inductive SemStep : SemState → SemState → Prop where
  | acquire (s : SemState) (i : Nat) (hw : s.tasks[i]? = some .waiting)
      (hs : 0 < s.sem) :
      SemStep s { sem := s.sem - 1, tasks := s.tasks.set i .inflight }
  | release (s : SemState) (i : Nat) (hf : s.tasks[i]? = some .inflight) :
      SemStep s { sem := s.sem + 1, tasks := s.tasks.set i .done }

/-- States reachable from the start of `asyncio.gather`. -/
inductive SemReach (max_concurrent numPages : Nat) : SemState → Prop where
  | init : SemReach max_concurrent numPages (initState max_concurrent numPages)
  | step {s t : SemState} : SemReach max_concurrent numPages s → SemStep s t →
      SemReach max_concurrent numPages t

/-- Number of page requests currently in flight. -/
def inflightCount (s : SemState) : Nat :=
  s.tasks.countP (· == .inflight)

end Vision3Async

/- ## `ExtractorFactory` (`src/core/extractor_factory.py`) -/

namespace Factory

/-- A registered extractor class, identified by its name (the embedding
does not need the class body, only its identity). -/
abbrev ExtractorClass := String

/-- The configuration dictionary passed to the class constructor. -/
abbrev ConfigDict := List (String × String)

/-- An instantiated extractor: the class it was built from plus the
configuration dictionary handed to the constructor. -/
abbrev ExtractorInstance := ExtractorClass × ConfigDict

/-- The class-level state of `ExtractorFactory`: `_extractors` (the
registry, an insertion-ordered dict) and `_instances` (the cache of
`get_extractor`). -/
structure FactoryState where
  extractors : List (String × ExtractorClass)
  instances : List (String × ExtractorInstance)
deriving DecidableEq, Repr

/-- Python dict lookup on an insertion-ordered association list whose
keys are unique (as `register_extractor` maintains). -/
def dictLookup (l : List (String × ExtractorClass)) (k : String) : Option ExtractorClass :=
  (l.find? fun p => p.1 == k).map Prod.snd

/-- Embeds `ExtractorFactory.register_extractor`: dict assignment
(`cls._extractors[extractor_type] = extractor_class`) overwrites in
place or appends. -/
def register_extractor (l : List (String × ExtractorClass))
    (extractor_type : String) (extractor_class : ExtractorClass) :
    List (String × ExtractorClass) :=
  if l.any fun p => p.1 == extractor_type then
    l.map fun p => if p.1 == extractor_type then (p.1, extractor_class) else p
  else l ++ [(extractor_type, extractor_class)]

/-- The `ValueError` message of `create_extractor`, with Python list
`repr` for the available types. -/
def unknownTypeMsg (extractor_type : String) (available : List String) : String :=
  "Tipo de extrator \x27" ++ extractor_type ++ "\x27 não registrado. " ++
    "Tipos disponíveis: " ++ pyListRepr available

/-- Embeds `ExtractorFactory.create_extractor`: raise `ValueError` when
the type is not registered, otherwise instantiate the registered class
with `config.config.to_dict() if config else {}`.  The returned state is
the (unmodified) class state, making explicit that the method performs
no mutation. -/
def create_extractor (st : FactoryState) (extractor_type : String)
    (config : Option ConfigDict) :
    Except String ExtractorInstance × FactoryState :=
  match dictLookup st.extractors extractor_type with
  | none =>
    (.error (unknownTypeMsg extractor_type (st.extractors.map Prod.fst)), st)
  | some extractor_class =>
    (.ok (extractor_class, config.getD []), st)

end Factory

/-- Concrete ledger row for the C1 counterexample: a success row whose
recorded output file is absent from the file system. -/
def c1Row : Vision3.CtrlRow :=
  { projeto := "P1", arquivo_pdf := "doc.pdf", hash_pdf := "h123",
    data_processamento := "2024-01-01T00:00:00", status := "success",
    output_path := "out.json" }

/- ## String and list helper lemmas -/

/-- An element with `p` false survives `List.dropWhile p`. -/
lemma mem_dropWhile_of_not {α : Type} (p : α → Bool) :
    ∀ (l : List α) (c : α), c ∈ l → p c = false → c ∈ l.dropWhile p := by
  intro l
  induction l with
  | nil => intro c hc; simp at hc
  | cons a tl ih =>
    intro c hc hp
    rcases List.mem_cons.mp hc with rfl | htl
    · simp [List.dropWhile_cons, hp]
    · by_cases ha : p a
      · simpa [List.dropWhile_cons, ha] using ih c htl hp
      · simp [List.dropWhile_cons, ha, List.mem_cons, htl]

/-- A string containing a non-whitespace character does not strip to the
empty string. -/
lemma pyStrip_ne_empty_of_mem (s : String) (c : Char)
    (hc : c.isWhitespace = false) (hmem : c ∈ s.data) :
    (pyStrip s).isEmpty = false := by
  have h1 : c ∈ s.data.dropWhile Char.isWhitespace :=
    mem_dropWhile_of_not _ _ _ hmem hc
  have h2 : c ∈ (s.data.dropWhile Char.isWhitespace).reverse :=
    List.mem_reverse.mpr h1
  have h3 : c ∈ (s.data.dropWhile Char.isWhitespace).reverse.dropWhile Char.isWhitespace :=
    mem_dropWhile_of_not _ _ _ h2 hc
  have h4 : c ∈ ((s.data.dropWhile Char.isWhitespace).reverse.dropWhile Char.isWhitespace).reverse :=
    List.mem_reverse.mpr h3
  have hne := List.ne_nil_of_mem h4
  rw [Bool.eq_false_iff]
  intro habs
  have : pyStrip s = "" := (String.isEmpty_iff _).mp habs
  apply hne
  have := congrArg String.data this
  simpa [pyStrip] using this

/-- Every member of a joined list occurs contiguously in the join. -/
lemma pyJoin_mem_split (sep : String) :
    ∀ (l : List String) (x : String), x ∈ l →
      ∃ pre post, pyJoin sep l = pre ++ x ++ post := by
  intro l
  induction l with
  | nil => intro x hx; simp at hx
  | cons a tl ih =>
    intro x hx
    rcases List.mem_cons.mp hx with rfl | htl
    · cases tl with
      | nil => exact ⟨"", "", by simp [pyJoin]⟩
      | cons b r =>
        refine ⟨"", sep ++ pyJoin sep (b :: r), ?_⟩
        show pyJoin sep (x :: b :: r) = "" ++ x ++ (sep ++ pyJoin sep (b :: r))
        apply String.ext
        simp [pyJoin, String.data_append]
    · cases tl with
      | nil => simp at htl
      | cons b r =>
        obtain ⟨pre, post, hsplit⟩ := ih x htl
        refine ⟨a ++ sep ++ pre, post, ?_⟩
        show pyJoin sep (a :: b :: r) = a ++ sep ++ pre ++ x ++ post
        apply String.ext
        simp [pyJoin, String.data_append, hsplit]

/-- Characterisation of the pages kept by the extraction loop: `(m, u)`
is kept from position `k` of the page list exactly when page `k` yielded
the text `u`, `m` is its 1-based number, and `u` passes the
`text and text.strip()` test. -/
lemma keptPages_mem_iff :
    ∀ (l : List (Option String)) (start m : Nat) (u : String),
      (m, u) ∈ Extractors.keptPages start l ↔
        ∃ k, l[k]? = some (some u) ∧ m = start + k ∧
          (!u.isEmpty && !(pyStrip u).isEmpty) = true := by
  intro l
  induction l with
  | nil => intro start m u; simp [Extractors.keptPages]
  | cons hd tl ih =>
    intro start m u
    cases hd with
    | none =>
      rw [show Extractors.keptPages start (none :: tl)
            = Extractors.keptPages (start + 1) tl from rfl, ih]
      constructor
      · rintro ⟨k, hk, rfl, hg⟩
        exact ⟨k + 1, by simpa using hk, by omega, hg⟩
      · rintro ⟨k, hk, hm, hg⟩
        cases k with
        | zero => simp at hk
        | succ j =>
          exact ⟨j, by simpa using hk, by omega, hg⟩
    | some t =>
      by_cases hg : (!t.isEmpty && !(pyStrip t).isEmpty) = true
      · rw [show Extractors.keptPages start (some t :: tl)
              = (start, t) :: Extractors.keptPages (start + 1) tl from by
            simp [Extractors.keptPages, hg]]
        constructor
        · intro hmem
          rcases List.mem_cons.mp hmem with heq | htl2
          · have hm : m = start := congrArg Prod.fst heq
            have hu : u = t := congrArg Prod.snd heq
            subst hm; subst hu
            exact ⟨0, by simp, by omega, hg⟩
          · obtain ⟨k, hk, hm, hgu⟩ := (ih (start + 1) m u).mp htl2
            exact ⟨k + 1, by simpa using hk, by omega, hgu⟩
        · rintro ⟨k, hk, hm, hgu⟩
          cases k with
          | zero =>
            simp only [List.getElem?_cons_zero, Option.some.injEq] at hk
            rw [List.mem_cons]
            left
            subst hk
            simp [hm]
          | succ j =>
            rw [List.mem_cons]
            right
            exact (ih (start + 1) m u).mpr ⟨j, by simpa using hk, by omega, hgu⟩
      · rw [show Extractors.keptPages start (some t :: tl)
              = Extractors.keptPages (start + 1) tl from by
            simp [Extractors.keptPages, hg], ih]
        constructor
        · rintro ⟨k, hk, rfl, hgu⟩
          exact ⟨k + 1, by simpa using hk, by omega, hgu⟩
        · rintro ⟨k, hk, hm, hgu⟩
          cases k with
          | zero =>
            simp only [List.getElem?_cons_zero, Option.some.injEq] at hk
            subst hk
            exact absurd hgu hg
          | succ j =>
            exact ⟨j, by simpa using hk, by omega, hgu⟩

/-- The number of kept pages is the number of pages passing the
`text and text.strip()` test. -/
lemma keptPages_length :
    ∀ (l : List (Option String)) (start : Nat),
      (Extractors.keptPages start l).length =
        l.countP (fun o => match o with
          | some u => !u.isEmpty && !(pyStrip u).isEmpty
          | none => false) := by
  intro l
  induction l with
  | nil => intro start; rfl
  | cons hd tl ih =>
    intro start
    cases hd with
    | none => simp [Extractors.keptPages, List.countP_cons, ih]
    | some t =>
      by_cases hg : (!t.isEmpty && !(pyStrip t).isEmpty) = true
      · simp [Extractors.keptPages, hg, List.countP_cons, ih]
      · simp [Extractors.keptPages, hg, List.countP_cons, ih]

/-- The page-delimiter character occurs in every page segment. -/
lemma eq_mem_pageSegment (n : Nat) (t : String) :
    '=' ∈ (Extractors.pageSegment n t).data := by
  have h0 : '=' ∈ ("=== PÁGINA " : String).data := by decide
  show '=' ∈ ("=== PÁGINA " ++ toString n ++ " ===\n" ++ t ++ "\n").data
  simp only [String.data_append]
  exact List.mem_append_left _ (List.mem_append_left _
    (List.mem_append_left _ (List.mem_append_left _ h0)))

/-- The page-delimiter character occurs in the join of page segments. -/
lemma eq_mem_pyJoin_seg (n : Nat) (t : String) (rest : List String) :
    '=' ∈ (pyJoin "\n" (Extractors.pageSegment n t :: rest)).data := by
  cases rest with
  | nil => exact eq_mem_pageSegment n t
  | cons b r =>
    show '=' ∈ (Extractors.pageSegment n t ++ "\n" ++ pyJoin "\n" (b :: r)).data
    simp only [String.data_append]
    exact List.mem_append_left _ (List.mem_append_left _ (eq_mem_pageSegment n t))

/-- Field shape of a successful backend extraction. -/
lemma extractBackend_ok_success (method : String) (pages : List (Option String)) :
    (Extractors.extractBackend method (.ok pages)).success
      = !((Extractors.keptPages 1 pages).map fun p => Extractors.pageSegment p.1 p.2).isEmpty :=
  rfl

/-- Text content of a successful backend extraction. -/
lemma extractBackend_ok_text (method : String) (pages : List (Option String)) :
    (Extractors.extractBackend method (.ok pages)).text_content
      = (if !((Extractors.keptPages 1 pages).map fun p => Extractors.pageSegment p.1 p.2).isEmpty
         then pyJoin "\n" ((Extractors.keptPages 1 pages).map fun p => Extractors.pageSegment p.1 p.2)
         else "") :=
  rfl

/-- Page count of a backend extraction. -/
lemma extractBackend_ok_pages (method : String) (pages : List (Option String)) :
    (Extractors.extractBackend method (.ok pages)).pages_processed
      = (Extractors.keptPages 1 pages).length :=
  rfl

/-- A successful backend extraction has non-whitespace text (its text
starts with a page-delimiter segment). -/
lemma extractBackend_strip_of_success (method : String)
    (outcome : Except (String × Nat) (List (Option String)))
    (h : (Extractors.extractBackend method outcome).success = true) :
    (pyStrip (Extractors.extractBackend method outcome).text_content).isEmpty = false := by
  cases outcome with
  | error e => simp [Extractors.extractBackend] at h
  | ok pages =>
    rw [extractBackend_ok_text]
    rw [extractBackend_ok_success] at h
    cases hk : Extractors.keptPages 1 pages with
    | nil => rw [hk] at h; simp at h
    | cons k ks =>
      simp only [List.map_cons, List.isEmpty_cons, Bool.not_false, if_true]
      exact pyStrip_ne_empty_of_mem _ '=' (by decide) (eq_mem_pyJoin_seg k.1 k.2 _)

/- ## Claim C1: skipping already-processed PDFs in `process_project` -/

/-- C1 (counterexample): the ledger holds a success row for project
`P1`, file `doc.pdf`, hash `h123`, yet when the output JSON path does
not exist on disk, `process_project` does not skip the file — extraction
runs again.  This refutes the claim that a success row alone suffices to
skip. -/
theorem C1_counterexample :
    c1Row ∈ [c1Row] ∧ c1Row.projeto = "P1" ∧ c1Row.arquivo_pdf = "doc.pdf" ∧
    c1Row.hash_pdf = "h123" ∧ c1Row.status = "success" ∧
    Vision3.process_project_skips [c1Row] (fun _ => false) "P1" "doc.pdf" "h123" "out.json"
      = false := by
  refine ⟨List.mem_singleton.mpr rfl, rfl, rfl, rfl, rfl, ?_⟩
  decide

/-- C1 (amended): `process_project` skips a PDF exactly when the most
recent ledger row for its `(project, filename, hash)` key has status
`success` and the freshly computed output JSON path exists on disk. -/
theorem C1_skip_iff (ctrlRows : List Vision3.CtrlRow) (fs : String → Bool)
    (p f h out : String) :
    Vision3.process_project_skips ctrlRows fs p f h out = true ↔
      ∃ r, Vision3.carrega_ctrl_csv ctrlRows (p, f, h) = some r ∧
        r.status = "success" ∧ fs out = true := by
  unfold Vision3.process_project_skips
  cases hc : Vision3.carrega_ctrl_csv ctrlRows (p, f, h) with
  | none => simp
  | some r => simp [Bool.and_eq_true, beq_iff_eq]

/- ## Claim C7: ledger creation writes the six-column header -/

/-- C7: when `append_ctrl_csv` creates the ledger it writes exactly the
header `projeto, arquivo_pdf, hash_pdf, data_processamento, status,
output_path` followed by the new row, and on any file state a call
either leaves the file unchanged or appends one row whose six fields
are, in order, the project, the PDF name, the hash, the timestamp, the
status and the output path. -/
theorem C7_header_and_row_shape (p a h s o now : String) :
    Vision3.append_ctrl_csv none p a h s o now
      = some [Vision3.ctrlHeader, [p, a, h, now, s, o]] ∧
    Vision3.ctrlHeader
      = ["projeto", "arquivo_pdf", "hash_pdf", "data_processamento", "status", "output_path"] ∧
    (∀ file : Vision3.CsvFile,
      Vision3.append_ctrl_csv file p a h s o now = file ∨
      ∃ rows, Vision3.append_ctrl_csv file p a h s o now
        = some (rows ++ [[p, a, h, now, s, o]])) := by
  refine ⟨by simp [Vision3.append_ctrl_csv, Vision3.readerKeys], rfl, ?_⟩
  intro file
  cases file with
  | none =>
    right
    exact ⟨[Vision3.ctrlHeader], by simp [Vision3.append_ctrl_csv, Vision3.readerKeys]⟩
  | some rows =>
    unfold Vision3.append_ctrl_csv
    by_cases hmem : (some p, some a, some h, some s, some o) ∈ Vision3.readerKeys rows
    · left; simp [hmem]
    · right; exact ⟨rows, by simp [hmem]⟩

/- ## Claim C9: `append_ctrl_csv` is idempotent on its key tuple -/

/-- C9: if the ledger (with the standard header) already holds a row
with the same project, PDF name, hash, status and output path — the
timestamp column being ignored by the duplicate check — then a further
call of `append_ctrl_csv` with those arguments leaves the file content
unchanged. -/
theorem C9_append_idempotent (body : List (List String)) (p a h ts s o now : String)
    (hmem : [p, a, h, ts, s, o] ∈ body) :
    Vision3.append_ctrl_csv (some (Vision3.ctrlHeader :: body)) p a h s o now
      = some (Vision3.ctrlHeader :: body) := by
  unfold Vision3.append_ctrl_csv
  have hkey : (some p, some a, some h, some s, some o) ∈
      Vision3.readerKeys (Vision3.ctrlHeader :: body) := by
    have hf : (fun r => (Vision3.rowField Vision3.ctrlHeader r "projeto",
        Vision3.rowField Vision3.ctrlHeader r "arquivo_pdf",
        Vision3.rowField Vision3.ctrlHeader r "hash_pdf",
        Vision3.rowField Vision3.ctrlHeader r "status",
        Vision3.rowField Vision3.ctrlHeader r "output_path")) [p, a, h, ts, s, o]
        = (some p, some a, some h, some s, some o) := rfl
    have := List.mem_map_of_mem (fun r => (Vision3.rowField Vision3.ctrlHeader r "projeto",
        Vision3.rowField Vision3.ctrlHeader r "arquivo_pdf",
        Vision3.rowField Vision3.ctrlHeader r "hash_pdf",
        Vision3.rowField Vision3.ctrlHeader r "status",
        Vision3.rowField Vision3.ctrlHeader r "output_path")) hmem
    rw [hf] at this
    simpa [Vision3.readerKeys] using this
  simp [hkey]

/-- C9 (witness): a ledger holding a success row is unchanged by a
second call with the same key and a different timestamp. -/
theorem C9_append_idempotent_witness :
    Vision3.append_ctrl_csv
      (some [Vision3.ctrlHeader, ["P1", "a.pdf", "h1", "t0", "success", "out.json"]])
      "P1" "a.pdf" "h1" "success" "out.json" "t1"
      = some [Vision3.ctrlHeader, ["P1", "a.pdf", "h1", "t0", "success", "out.json"]] :=
  C9_append_idempotent [["P1", "a.pdf", "h1", "t0", "success", "out.json"]]
    "P1" "a.pdf" "h1" "t0" "success" "out.json" "t1" (by decide)

/- ## Claim C10: `ExtractorFactory.create_extractor` -/

/-- C10: for an unregistered type `create_extractor` raises `ValueError`
naming the available types, and returns the factory state (registry and
instance cache) unchanged; for a registered type it returns an instance
of the registered class built with the given configuration. -/
theorem C10_create_extractor (st : Factory.FactoryState) (t : String)
    (cfg : Option Factory.ConfigDict) :
    (Factory.create_extractor st t cfg).2 = st ∧
    (Factory.dictLookup st.extractors t = none →
      (Factory.create_extractor st t cfg).1
        = .error (Factory.unknownTypeMsg t (st.extractors.map Prod.fst))) ∧
    (∀ c, Factory.dictLookup st.extractors t = some c →
      (Factory.create_extractor st t cfg).1 = .ok (c, cfg.getD [])) := by
  unfold Factory.create_extractor
  cases hl : Factory.dictLookup st.extractors t with
  | none => simp
  | some c => simp

/-- C10 (witness): on a registry holding only `direct`, requesting `ocr`
yields the `ValueError` message listing `direct`, and requesting
`direct` yields an instance of the registered class. -/
theorem C10_create_extractor_witness :
    (Factory.create_extractor ⟨[("direct", "DirectExtractor")], []⟩ "ocr" none).1
      = .error (Factory.unknownTypeMsg "ocr" ["direct"]) ∧
    (Factory.create_extractor ⟨[("direct", "DirectExtractor")], []⟩ "direct" none).1
      = .ok ("DirectExtractor", []) :=
  ⟨(C10_create_extractor ⟨[("direct", "DirectExtractor")], []⟩ "ocr" none).2.1 (by decide),
   (C10_create_extractor ⟨[("direct", "DirectExtractor")], []⟩ "direct" none).2.2
     "DirectExtractor" (by decide)⟩

/- ## Claim C2: the hybrid extractor's direct-first strategy -/

/-- C2 (counterexample): with the default configuration (threshold 50),
a direct extraction that succeeds with the non-empty text `abc` is still
followed by the OCR fallback, because 3 stripped characters are below
`min_text_threshold`.  This refutes the claim that non-empty direct text
alone suppresses OCR. -/
theorem C2_counterexample :
    (Extractors.ExtractionResult.text_content
        { success := true, text_content := "abc", pages_processed := 1,
          extraction_method := "pdfplumber", error_message := none } ≠ "") ∧
    (Extractors.hybridExtractText Extractors.defaultHybridConfig true
      (.ok { success := true, text_content := "abc", pages_processed := 1,
             extraction_method := "pdfplumber", error_message := none })
      (.error "ocr indisponivel")).2 = true := by
  constructor
  · decide
  · decide

/-- C2 (amended): whenever the direct attempt returns a result that
passes `_is_extraction_successful` (success flag set, stripped text at
least `min_text_threshold` characters, at least one page) and direct
extraction is preferred, `extract_text` returns that direct result
(tagged `(Direct)`) and the OCR fallback is not invoked. -/
theorem C2_direct_suppresses_ocr (cfg : Extractors.HybridConfig)
    (ocr : Except String Extractors.ExtractionResult)
    (d : Extractors.ExtractionResult)
    (hpd : cfg.prefer_direct = true)
    (hsucc : Extractors.is_extraction_successful cfg d = true) :
    Extractors.hybridExtractText cfg true (.ok d) ocr
      = ({ d with extraction_method := Extractors.hybridName ++ " (Direct)" }, false) := by
  unfold Extractors.hybridExtractText Extractors.tryAttempt
  simp [hpd, hsucc]

/-- C2 (witness): a direct result with 50 stripped characters and one
page is returned unchanged (tagged Direct) and OCR is never called. -/
theorem C2_direct_suppresses_ocr_witness :
    Extractors.hybridExtractText Extractors.defaultHybridConfig true
      (.ok { success := true,
             text_content := "aaaaaaaaaaaaaaaaaaaaaaaaaaaaaaaaaaaaaaaaaaaaaaaaaa",
             pages_processed := 1, extraction_method := "pdfplumber",
             error_message := none })
      (.error "ocr indisponivel")
      = ({ success := true,
           text_content := "aaaaaaaaaaaaaaaaaaaaaaaaaaaaaaaaaaaaaaaaaaaaaaaaaa",
           pages_processed := 1,
           extraction_method := Extractors.hybridName ++ " (Direct)",
           error_message := none }, false) :=
  C2_direct_suppresses_ocr Extractors.defaultHybridConfig (.error "ocr indisponivel")
    { success := true,
      text_content := "aaaaaaaaaaaaaaaaaaaaaaaaaaaaaaaaaaaaaaaaaaaaaaaaaa",
      pages_processed := 1, extraction_method := "pdfplumber", error_message := none }
    rfl (by decide)

/- ## Claim C3: file-lock retry in `verificar_pdf_valido` -/

/-- One lock-error retry iteration of the validation loop. -/
lemma verificarLoop_conv_lock (env : Nat → DadosPdf.PdfAttempt) (t fuel : Nat) (m : String)
    (henv : env t = .convErr m) (hl : DadosPdf.isLockMsg m = true) (hlt : t < 3) :
    DadosPdf.verificarLoop env t (fuel + 1)
      = ((DadosPdf.verificarLoop env (t + 1) fuel).1,
         t :: (DadosPdf.verificarLoop env (t + 1) fuel).2) := by
  simp [DadosPdf.verificarLoop, henv, hl, hlt]

/-- The exhausted third attempt of the validation loop on a lock error. -/
lemma verificarLoop_conv_lock_last (env : Nat → DadosPdf.PdfAttempt) (fuel : Nat) (m : String)
    (henv : env 3 = .convErr m) (hl : DadosPdf.isLockMsg m = true) :
    DadosPdf.verificarLoop env 3 (fuel + 1)
      = ((false, "Arquivo em uso após 3 tentativas: " ++ m), []) := by
  simp [DadosPdf.verificarLoop, henv, hl]

/-- C3: when the conversion raises a Windows file-lock error (message
containing `winerror 32` or `sendo usado por outro processo` after
lowercasing) on all three attempts, `verificar_pdf_valido` sleeps
`1.0 * 1` then `1.0 * 2` seconds between attempts and, the attempts
exhausted, returns `(False, error message)` instead of raising (the
embedding is a total function). -/
theorem C3_lock_retry (env : Nat → DadosPdf.PdfAttempt) (m1 m2 m3 : String)
    (h1 : env 1 = .convErr m1) (h2 : env 2 = .convErr m2) (h3 : env 3 = .convErr m3)
    (l1 : DadosPdf.isLockMsg m1 = true) (l2 : DadosPdf.isLockMsg m2 = true)
    (l3 : DadosPdf.isLockMsg m3 = true) :
    DadosPdf.verificar_pdf_valido env
      = ((false, "Arquivo em uso após 3 tentativas: " ++ m3), [1, 2]) := by
  have e1 := verificarLoop_conv_lock env 1 2 m1 h1 l1 (by norm_num)
  have e2 := verificarLoop_conv_lock env 2 1 m2 h2 l2 (by norm_num)
  have e3 := verificarLoop_conv_lock_last env 0 m3 h3 l3
  norm_num at e1 e2 e3
  unfold DadosPdf.verificar_pdf_valido
  rw [e1, e2, e3]

/-- C3 (witness): three consecutive `WinError 32` failures produce the
final failure tuple and the backoff sleeps `[1, 2]`. -/
theorem C3_lock_retry_witness :
    DadosPdf.verificar_pdf_valido (fun _ => .convErr "WinError 32") =
      ((false, "Arquivo em uso após 3 tentativas: " ++ "WinError 32"), [1, 2]) :=
  C3_lock_retry (fun _ => .convErr "WinError 32") "WinError 32" "WinError 32" "WinError 32"
    rfl rfl rfl (by decide) (by decide) (by decide)

/- ## Claim C4: CSV write retry with backup and temp-directory fallback -/

/-- One `PermissionError` retry iteration of the CSV write loop. -/
lemma gerarCsvLoop_perm_step (mainW : Nat → DadosPdf.WriteOutcome) (fb : Bool)
    (existsAt : Nat → Bool) (t fuel : Nat) (m : String)
    (h : mainW t = .permErr m) (hlt : t < 3) :
    DadosPdf.gerarCsvLoop mainW fb existsAt t (fuel + 1)
      = ((DadosPdf.gerarCsvLoop mainW fb existsAt (t + 1) fuel).1,
         (if existsAt t && decide (1 < t) then [t] else []) ++
           (DadosPdf.gerarCsvLoop mainW fb existsAt (t + 1) fuel).2.1,
         2 :: (DadosPdf.gerarCsvLoop mainW fb existsAt (t + 1) fuel).2.2) := by
  simp [DadosPdf.gerarCsvLoop, h, hlt]

/-- The exhausted third attempt of the CSV write loop: fall back to the
temporary file, re-raising the `PermissionError` only when that write
also fails. -/
lemma gerarCsvLoop_perm_last (mainW : Nat → DadosPdf.WriteOutcome) (fb : Bool)
    (existsAt : Nat → Bool) (fuel : Nat) (m : String)
    (h : mainW 3 = .permErr m) :
    DadosPdf.gerarCsvLoop mainW fb existsAt 3 (fuel + 1)
      = ((if fb then .ok .tempPath else .error (.permError m)),
         (if existsAt 3 then [3] else []), []) := by
  by_cases hfb : fb <;> simp [DadosPdf.gerarCsvLoop, h, hfb]

/-- C4: when every write to the target CSV raises `PermissionError`, the
loop retries three attempts in total (sleeping 2 s between them), makes
a backup of the existing file before each re-attempt, then writes the
rows to the fallback file in the temporary location; the
`PermissionError` is re-raised exactly when that fallback write also
fails. -/
theorem C4_perm_retry (mainW : Nat → DadosPdf.WriteOutcome) (fb : Bool)
    (existsAt : Nat → Bool) (m1 m2 m3 : String)
    (h1 : mainW 1 = .permErr m1) (h2 : mainW 2 = .permErr m2) (h3 : mainW 3 = .permErr m3) :
    DadosPdf.gerar_csv_arquivos_pdfs false mainW fb existsAt
      = ((if fb then .ok .tempPath else .error (.permError m3)),
         (if existsAt 2 then [2] else []) ++ (if existsAt 3 then [3] else []),
         [2, 2]) := by
  have e1 := gerarCsvLoop_perm_step mainW fb existsAt 1 2 m1 h1 (by norm_num)
  have e2 := gerarCsvLoop_perm_step mainW fb existsAt 2 1 m2 h2 (by norm_num)
  have e3 := gerarCsvLoop_perm_last mainW fb existsAt 0 m3 h3
  norm_num at e1 e2 e3
  unfold DadosPdf.gerar_csv_arquivos_pdfs
  rw [if_neg (by simp), e1, e2, e3]

/-- C4 (witness): three `PermissionError` failures with the file present
from attempt 2 on; the fallback write succeeds, so the rows land in the
temporary file, backups were taken at attempts 2 and 3, and no error is
raised. -/
theorem C4_perm_retry_witness :
    DadosPdf.gerar_csv_arquivos_pdfs false (fun _ => .permErr "Permission denied") true
      (fun _ => true)
      = (.ok .tempPath, [2, 3], [2, 2]) :=
  C4_perm_retry (fun _ => .permErr "Permission denied") true (fun _ => true)
    "Permission denied" "Permission denied" "Permission denied" rfl rfl rfl

/- ## Claim C8: the semaphore bounds in-flight OpenAI requests -/

/-- Updating one known element shifts `countP` by the predicate values
of the old and new elements. -/
lemma countP_set_balance {α : Type} (p : α → Bool) :
    ∀ (l : List α) (i : Nat) (a b : α), l[i]? = some b →
      (l.set i a).countP p + (if p b then 1 else 0)
        = l.countP p + (if p a then 1 else 0) := by
  intro l
  induction l with
  | nil => intro i a b hb; simp at hb
  | cons hd tl ih =>
    intro i a b hb
    cases i with
    | zero =>
      simp only [List.getElem?_cons_zero, Option.some.injEq] at hb
      subst hb
      simp [List.countP_cons]
      omega
    | succ j =>
      simp only [List.getElem?_cons_succ] at hb
      have := ih j a b hb
      simp [List.countP_cons]
      omega

/-- No task is in flight before the first acquisition. -/
lemma inflightCount_init (n k : Nat) :
    Vision3Async.inflightCount (Vision3Async.initState n k) = 0 := by
  unfold Vision3Async.inflightCount Vision3Async.initState
  induction k with
  | zero => rfl
  | succ j ih => simp [List.replicate_succ, List.countP_cons, ih]

/-- Invariant of the semaphore system: in-flight requests plus available
permits always equal `max_concurrent`. -/
lemma semReach_invariant {n k : Nat} {s : Vision3Async.SemState}
    (h : Vision3Async.SemReach n k s) :
    Vision3Async.inflightCount s + s.sem = n := by
  induction h with
  | init =>
    rw [inflightCount_init]
    simp [Vision3Async.initState]
  | @step s t hr hstep ih =>
    cases hstep with
    | acquire i hw hs =>
      have hc := countP_set_balance (· == Vision3Async.TaskStatus.inflight)
        s.tasks i .inflight .waiting hw
      simp only [Vision3Async.inflightCount] at *
      simp at hc
      omega
    | release i hf =>
      have hc := countP_set_balance (· == Vision3Async.TaskStatus.inflight)
        s.tasks i .done .inflight hf
      simp only [Vision3Async.inflightCount] at *
      simp at hc
      omega

/-- C8: in every state reachable during `asyncio.gather`, at most
`max_concurrent` page requests are in flight, because each
`process_with_semaphore` task must hold the shared
`asyncio.Semaphore(max_concurrent)` while its API call runs. -/
theorem C8_semaphore_bound {max_concurrent numPages : Nat} {s : Vision3Async.SemState}
    (h : Vision3Async.SemReach max_concurrent numPages s) :
    Vision3Async.inflightCount s ≤ max_concurrent := by
  have := semReach_invariant h
  omega

/-- C8 (witness): after one task of three acquires a 2-permit semaphore,
the in-flight count is within the bound. -/
theorem C8_semaphore_bound_witness :
    Vision3Async.inflightCount { sem := 1, tasks := [.inflight, .waiting, .waiting] } ≤ 2 :=
  C8_semaphore_bound
    (Vision3Async.SemReach.step
      (Vision3Async.SemReach.init :
        Vision3Async.SemReach 2 3 (Vision3Async.initState 2 3))
      (Vision3Async.SemStep.acquire _ 0 rfl (by decide)))

/- ## Claim C5: pdfplumber first, PyPDF2 only as fallback -/

/-- C5: `DirectExtractor.extract_text` (valid PDF, both backends
enabled) returns the pdfplumber result whenever it succeeds — and a
successful backend result always has non-whitespace text — without
attempting PyPDF2; PyPDF2 is attempted exactly when the pdfplumber
attempt fails, and its result is returned when it succeeds; when both
fail the returned result has `success = False`, empty `text_content`
and `pages_processed = 0`. -/
theorem C5_backend_order (plumber pypdf : Except (String × Nat) (List (Option String))) :
    ((Extractors.extractBackend "pdfplumber" plumber).success = true →
      (pyStrip (Extractors.extractBackend "pdfplumber" plumber).text_content).isEmpty = false ∧
      Extractors.directExtractText true true true plumber pypdf
        = (Extractors.extractBackend "pdfplumber" plumber, false)) ∧
    ((Extractors.extractBackend "pdfplumber" plumber).success = false →
      (Extractors.extractBackend "PyPDF2" pypdf).success = true →
      Extractors.directExtractText true true true plumber pypdf
        = (Extractors.extractBackend "PyPDF2" pypdf, true)) ∧
    ((Extractors.extractBackend "pdfplumber" plumber).success = false →
      (Extractors.extractBackend "PyPDF2" pypdf).success = false →
      Extractors.directExtractText true true true plumber pypdf
        = (Extractors.directBothFailed, true)) := by
  refine ⟨?_, ?_, ?_⟩
  · intro hs
    have hstrip := extractBackend_strip_of_success "pdfplumber" plumber hs
    refine ⟨hstrip, ?_⟩
    unfold Extractors.directExtractText
    simp [hs, hstrip]
  · intro hs h2
    unfold Extractors.directExtractText
    simp [hs, h2]
  · intro hs h2
    unfold Extractors.directExtractText
    simp [hs, h2]

/-- C5 (witness): with a one-page text layer, pdfplumber's result is
returned and PyPDF2 is not attempted; with an empty pdfplumber yield,
PyPDF2 is attempted and its successful result returned. -/
theorem C5_backend_order_witness :
    Extractors.directExtractText true true true (.ok [some "texto da pagina um"]) (.ok [])
      = (Extractors.extractBackend "pdfplumber" (.ok [some "texto da pagina um"]), false) ∧
    Extractors.directExtractText true true true (.ok []) (.ok [some "texto ocr"])
      = (Extractors.extractBackend "PyPDF2" (.ok [some "texto ocr"]), true) :=
  ⟨((C5_backend_order (.ok [some "texto da pagina um"]) (.ok [])).1 (by decide)).2,
   (C5_backend_order (.ok []) (.ok [some "texto ocr"])).2.1 (by decide) (by decide)⟩

/- ## Claim C6: page delimiters in the extracted text -/

/-- C6: every 1-based page `n` whose extracted text `t` is non-empty
after stripping contributes the block `=== PÁGINA n ===` immediately
followed by its text in the extractor output; `pages_processed` counts
exactly the pages passing the `text and text.strip()` test; and a page
whose text is whitespace-only or `None` contributes no segment. -/
theorem C6_page_delimiters (pages : List (Option String)) (n : Nat) (t : String)
    (hn : 1 ≤ n) (hp : pages[n - 1]? = some (some t))
    (ht : (pyStrip t).isEmpty = false) :
    (∃ pre post, (Extractors.extractBackend "pdfplumber" (.ok pages)).text_content
        = pre ++ ("=== PÁGINA " ++ toString n ++ " ===\n" ++ t ++ "\n") ++ post) ∧
    (Extractors.extractBackend "pdfplumber" (.ok pages)).pages_processed
      = pages.countP (fun o => match o with
          | some u => !u.isEmpty && !(pyStrip u).isEmpty
          | none => false) ∧
    (∀ m v, pages[m - 1]? = some (some v) → (pyStrip v).isEmpty = true →
      ¬ m ∈ (Extractors.keptPages 1 pages).map Prod.fst) ∧
    (∀ m, pages[m - 1]? = some none →
      ¬ m ∈ (Extractors.keptPages 1 pages).map Prod.fst) := by
  have hne : t.isEmpty = false := by
    rw [Bool.eq_false_iff]
    intro habs
    have ht0 : t = "" := (String.isEmpty_iff t).mp habs
    rw [ht0] at ht
    exact absurd ht (by decide)
  have hkmem : (n, t) ∈ Extractors.keptPages 1 pages :=
    (keptPages_mem_iff pages 1 n t).mpr
      ⟨n - 1, hp, by omega, by simp [hne, ht]⟩
  refine ⟨?_, ?_, ?_, ?_⟩
  · have hsegmem : Extractors.pageSegment n t ∈
        (Extractors.keptPages 1 pages).map fun p => Extractors.pageSegment p.1 p.2 :=
      List.mem_map_of_mem _ hkmem
    rw [extractBackend_ok_text]
    cases hk : Extractors.keptPages 1 pages with
    | nil => rw [hk] at hkmem; simp at hkmem
    | cons k ks =>
      rw [hk] at hsegmem
      have hcond : (!((k :: ks).map fun p => Extractors.pageSegment p.1 p.2).isEmpty) = true := by
        simp
      rw [if_pos hcond]
      obtain ⟨pre, post, hsplit⟩ := pyJoin_mem_split "\n" _ _ hsegmem
      exact ⟨pre, post, by rw [hsplit]; rfl⟩
  · rw [extractBackend_ok_pages]
    exact keptPages_length pages 1
  · intro m v hpv hstripv hmm
    obtain ⟨⟨m', u⟩, hmem', hfst⟩ := List.mem_map.mp hmm
    simp only at hfst
    subst hfst
    obtain ⟨k, hk, hmk, hgu⟩ := (keptPages_mem_iff pages 1 m' u).mp hmem'
    have hkm : k = m' - 1 := by omega
    rw [hkm, hpv] at hk
    simp only [Option.some.injEq] at hk
    subst hk
    simp [hstripv] at hgu
  · intro m hpn hmm
    obtain ⟨⟨m', u⟩, hmem', hfst⟩ := List.mem_map.mp hmm
    simp only at hfst
    subst hfst
    obtain ⟨k, hk, hmk, hgu⟩ := (keptPages_mem_iff pages 1 m' u).mp hmem'
    have hkm : k = m' - 1 := by omega
    rw [hkm, hpn] at hk
    simp at hk

/-- C6 (witness): on a document whose pages yield non-empty text, `None`
and whitespace-only text, the output contains the delimiter block for
page 1 and counts one processed page. -/
theorem C6_page_delimiters_witness :
    (∃ pre post,
      (Extractors.extractBackend "pdfplumber"
          (.ok [some "primeira pagina", none, some "   "])).text_content
        = pre ++ ("=== PÁGINA " ++ toString 1 ++ " ===\n" ++ "primeira pagina" ++ "\n") ++ post) ∧
    (Extractors.extractBackend "pdfplumber"
        (.ok [some "primeira pagina", none, some "   "])).pages_processed
      = ([some "primeira pagina", none, some "   "] : List (Option String)).countP
          (fun o => match o with
            | some u => !u.isEmpty && !(pyStrip u).isEmpty
            | none => false) :=
  ⟨(C6_page_delimiters [some "primeira pagina", none, some "   "] 1 "primeira pagina"
      (by decide) (by decide) (by decide)).1,
   (C6_page_delimiters [some "primeira pagina", none, some "   "] 1 "primeira pagina"
      (by decide) (by decide) (by decide)).2.1⟩
